import Mathlib

/-!
# Verification of `lexi_backend.py`

A shallow embedding of the core logic of the Lexi Live control backend:
the session gate, the instance-directory cache and active-instance
resolution, the device-control client, and the schedule-ingestion
pipeline, together with theorems settling the specification claims.

Python strings are modelled as `List Char`; the string operations used by
the source (`in`, `split(sep, 1)`, `strip`, `upper`, `lower`, `replace`)
are re-implemented structurally so that every definition evaluates inside
the kernel.  External effects (the vendor HTTP endpoints, the clock, and
the `pytz` time-zone database) are passed in as explicit parameters, and
each request handler returns the list of vendor calls it performed.
-/

namespace LexiBackend

/-! ## Python string model -/

/-- Python `str` values, modelled as lists of characters. -/
abbrev Str := List Char


/-- `pre.isPrefixOf s` as a boolean on character lists. -/
def startsWith : Str → Str → Bool
  | [], _ => true
  | _ :: _, [] => false
  | p :: ps, c :: cs => p = c && startsWith ps cs

/-- The suffix of `s` after the first occurrence of `sep`, or `none` when
`sep` does not occur.  `afterFirst sep s = some r` models the combination
of Python's `sep in s` test with `s.split(sep, 1)[1]`. -/
def afterFirst (sep : Str) : Str → Option Str
  | [] => if sep = [] then some [] else none
  | c :: cs =>
      if startsWith sep (c :: cs) then some ((c :: cs).drop sep.length)
      else afterFirst sep cs

/-- Python's `sep in s` (for the non-empty separators used in the source). -/
def containsSub (sep s : Str) : Bool := (afterFirst sep s).isSome

/-- The prefix of `s` before the first occurrence of `sep` (all of `s`
when `sep` is absent): Python's `s.split(sep, 1)[0]`. -/
def beforeFirst (sep : Str) : Str → Str
  | [] => []
  | c :: cs =>
      if startsWith sep (c :: cs) then []
      else c :: beforeFirst sep cs

/-- Python `s.strip()` (over the source's ASCII whitespace). -/
def pyStrip (s : Str) : Str :=
  ((s.dropWhile Char.isWhitespace).reverse.dropWhile Char.isWhitespace).reverse

/-- Python `s.upper()` (ASCII, which covers every state string the
source compares against). -/
def pyUpper (s : Str) : Str := s.map Char.toUpper

/-- Python `s.lower()` (ASCII). -/
def pyLower (s : Str) : Str := s.map Char.toLower

/-- Python `s.replace("Z", "")`, the one `replace` the source performs:
removing a single character deletes every occurrence of it. -/
def removeZ (s : Str) : Str := s.filter (fun c => c ≠ 'Z')

/-- Code-point order on characters, as Python compares strings. -/
def strLe : Str → Str → Bool
  | [], _ => true
  | _ :: _, [] => false
  | a :: as, b :: bs =>
      if a.toNat < b.toNat then true
      else if b.toNat < a.toNat then false
      else strLe as bs

/-! ## Civil date-times and the compact timestamp format -/

/-- A civil (wall-clock) date-time: the fields of a Python `datetime`. -/
structure Civil where
  year : Nat
  month : Nat
  day : Nat
  hour : Nat
  minute : Nat
  second : Nat
  deriving DecidableEq, Repr

/-- Gregorian leap-year test, as `datetime` validates days. -/
def isLeap (y : Nat) : Bool := y % 4 = 0 && (y % 100 ≠ 0 || y % 400 = 0)

/-- Days in a month, for `datetime`'s day-of-month validation. -/
def daysInMonth (y m : Nat) : Nat :=
  if m = 2 then (if isLeap y then 29 else 28)
  else if m = 4 || m = 6 || m = 9 || m = 11 then 30
  else 31

/-- The digit value of an ASCII digit character. -/
def digitVal (c : Char) : Option Nat :=
  if c.isDigit then some (c.toNat - 48) else none

/-- Combine digit characters into a number, failing on a non-digit. -/
def digitsVal : Str → Option Nat
  | [] => some 0
  | c :: cs => do
      let d ← digitVal c
      let rest ← digitsVal cs
      pure (d * 10 ^ cs.length + rest)

/--
`datetime.strptime(raw, "%Y%m%dT%H%M%S")`, restricted to the canonical
15-character `YYYYMMDDTHHMMSS` form named by the format (4-digit year,
2-digit month/day/hour/minute/second, literal `T`), with `datetime`'s
range validation.  Any other input is treated as unparsable and yields
`none`, which the source maps to its fallback path.
-/
def parseCompactTS (s : Str) : Option Civil :=
  match s with
  | [y1, y2, y3, y4, mo1, mo2, d1, d2, t, h1, h2, mi1, mi2, s1, s2] =>
      if t = 'T' then do
        let y ← digitsVal [y1, y2, y3, y4]
        let mo ← digitsVal [mo1, mo2]
        let d ← digitsVal [d1, d2]
        let h ← digitsVal [h1, h2]
        let mi ← digitsVal [mi1, mi2]
        let sec ← digitsVal [s1, s2]
        if 1 ≤ y ∧ 1 ≤ mo ∧ mo ≤ 12 ∧ 1 ≤ d ∧ d ≤ daysInMonth y mo ∧
            h ≤ 23 ∧ mi ≤ 59 ∧ sec ≤ 59 then
          pure ⟨y, mo, d, h, mi, sec⟩
        else none
      else none
  | _ => none

/--
A `pytz`-aware datetime in the configured zone (`Australia/Sydney`).
`tz.localize(naive)` produces `localized c`; `datetime.fromtimestamp(e, tz)`
produces `fromEpoch e`.
-/
inductive ZonedDT where
  | localized (c : Civil)
  | fromEpoch (e : Int)
  deriving DecidableEq, Repr

/--
The `pytz` zone data for the configured zone, passed in as explicit
external data: the UTC offset (in minutes) `localize` attaches to a civil
time, the civil time and offset `fromtimestamp` derives from an epoch, and
the epoch second `timestamp()` computes for a localized civil time.
-/
structure TZ where
  localOffset : Civil → Int
  civilOfEpoch : Int → Civil × Int
  epochOfCivil : Civil → Int

/-- The civil fields of a zoned datetime (what `strftime` formats). -/
def zdtCivil (tz : TZ) : ZonedDT → Civil
  | .localized c => c
  | .fromEpoch e => (tz.civilOfEpoch e).1

/-- The UTC offset (minutes) of a zoned datetime (what `isoformat` prints). -/
def zdtOffset (tz : TZ) : ZonedDT → Int
  | .localized c => tz.localOffset c
  | .fromEpoch e => (tz.civilOfEpoch e).2

/-! ## Raw booking records and the field-marker literals -/

/--
A raw booking record from the vendor scheduling endpoint: the embedded
semi-structured text block (`ev.get("ics", "") or ""`, already normalised
to a string) and the optional numeric epoch fields `start_time`/`end_time`.
-/
structure RawEvent where
  ics : Str
  start_time : Option Int
  end_time : Option Int
  deriving DecidableEq, Repr

/-- The `SUMMARY:` field marker. -/
def summaryMark : Str := "SUMMARY:".toList

/-- The `DESCRIPTION:` field marker. -/
def descriptionMark : Str := "DESCRIPTION:".toList

/-- The CRLF line terminator the source splits on. -/
def crlf : Str := "\r\n".toList

/-- The `DTSTART` tag. -/
def dtstartTag : Str := "DTSTART".toList

/-- The `DTEND` tag. -/
def dtendTag : Str := "DTEND".toList

/-- The zone qualifier appended to a tag to form its marker. -/
def tzidMark : Str := ";TZID=Australia/Sydney:".toList

/-- The fixed placeholder title. -/
def defaultTitle : Str := "LEXI Booking".toList

/-! ## Field extraction — `get_upcoming_events` copy (lines 399-459) -/

/-- `title` extraction as written in `get_upcoming_events`: the text after
the first `SUMMARY:` up to the next CRLF, stripped, defaulting to the
placeholder when the marker is absent or the stripped text is empty. -/
def titleOfIcsU (ics : Str) : Str :=
  match afterFirst summaryMark ics with
  | none => defaultTitle
  | some after =>
      let title_line := beforeFirst crlf after
      if pyStrip title_line ≠ [] then pyStrip title_line else defaultTitle

/-- `description` extraction in `get_upcoming_events`: same shape as the
title but from `DESCRIPTION:`, defaulting to the empty string. -/
def descOfIcsU (ics : Str) : Str :=
  match afterFirst descriptionMark ics with
  | none => []
  | some after =>
      let desc_line := beforeFirst crlf after
      if pyStrip desc_line ≠ [] then pyStrip desc_line else []

/-- The inner `extract_dt` of `get_upcoming_events`: locate the
zone-qualified marker for `tag`, take the text up to the next CRLF,
strip it, parse the compact timestamp and localize it; `none` when the
marker is absent or the text unparsable. -/
def extract_dtU (ics tag : Str) : Option ZonedDT :=
  match afterFirst (tag ++ tzidMark) ics with
  | none => none
  | some after =>
      match parseCompactTS (pyStrip (beforeFirst crlf after)) with
      | none => none
      | some c => some (.localized c)

/-- `start_dt` after marker extraction and the numeric-epoch fallback. -/
def resolveStartU (ev : RawEvent) : Option ZonedDT :=
  match extract_dtU ev.ics dtstartTag with
  | some dt => some dt
  | none => ev.start_time.map ZonedDT.fromEpoch

/-- `end_dt` after marker extraction and the numeric-epoch fallback. -/
def resolveEndU (ev : RawEvent) : Option ZonedDT :=
  match extract_dtU ev.ics dtendTag with
  | some dt => some dt
  | none => ev.end_time.map ZonedDT.fromEpoch

/-- The resolved field quadruple of one record. -/
structure Resolved where
  title : Str
  description : Str
  startDT : ZonedDT
  endDT : ZonedDT
  deriving DecidableEq, Repr

/-- One record of the upcoming-jobs path, resolved: `none` exactly when
the source's `if not start_dt or not end_dt: continue` drops it. -/
def quadU (ev : RawEvent) : Option Resolved :=
  match resolveStartU ev, resolveEndU ev with
  | some s, some e => some ⟨titleOfIcsU ev.ics, descOfIcsU ev.ics, s, e⟩
  | _, _ => none

/-! ## Field extraction — `events_feed` copy (lines 964-1019) -/

/-- `title` extraction as duplicated in `events_feed`. -/
def titleOfIcsF (ics : Str) : Str :=
  match afterFirst summaryMark ics with
  | none => defaultTitle
  | some after =>
      let title_line := beforeFirst crlf after
      if pyStrip title_line ≠ [] then pyStrip title_line else defaultTitle

/-- `description` extraction as duplicated in `events_feed`. -/
def descOfIcsF (ics : Str) : Str :=
  match afterFirst descriptionMark ics with
  | none => []
  | some after =>
      let desc_line := beforeFirst crlf after
      if pyStrip desc_line ≠ [] then pyStrip desc_line else []

/-- The inner `extract_dt` as duplicated in `events_feed`. -/
def extract_dtF (ics tag : Str) : Option ZonedDT :=
  match afterFirst (tag ++ tzidMark) ics with
  | none => none
  | some after =>
      match parseCompactTS (pyStrip (beforeFirst crlf after)) with
      | none => none
      | some c => some (.localized c)

/-- `start_dt` resolution as duplicated in `events_feed`. -/
def resolveStartF (ev : RawEvent) : Option ZonedDT :=
  match extract_dtF ev.ics dtstartTag with
  | some dt => some dt
  | none => ev.start_time.map ZonedDT.fromEpoch

/-- `end_dt` resolution as duplicated in `events_feed`. -/
def resolveEndF (ev : RawEvent) : Option ZonedDT :=
  match extract_dtF ev.ics dtendTag with
  | some dt => some dt
  | none => ev.end_time.map ZonedDT.fromEpoch

/-- One record of the calendar-feed path, resolved. -/
def quadF (ev : RawEvent) : Option Resolved :=
  match resolveStartF ev, resolveEndF ev with
  | some s, some e => some ⟨titleOfIcsF ev.ics, descOfIcsF ev.ics, s, e⟩
  | _, _ => none

/-! ## Output formatting of the two paths -/

/-- Decimal digits of a natural number. -/
def natStr (n : Nat) : Str := (toString n).toList

/-- Two-digit zero-padded field, as `strftime` pads `%d`, `%H`, `%M`. -/
def pad2 (n : Nat) : Str := if n < 10 then '0' :: natStr n else natStr n

/-- Four-digit zero-padded year, as `isoformat` prints it. -/
def pad4 (n : Nat) : Str :=
  if n < 10 then '0' :: '0' :: '0' :: natStr n
  else if n < 100 then '0' :: '0' :: natStr n
  else if n < 1000 then '0' :: natStr n
  else natStr n

/-- `strftime`'s `%b` abbreviated month name. -/
def monthAbbr (m : Nat) : Str :=
  (["Jan", "Feb", "Mar", "Apr", "May", "Jun", "Jul", "Aug", "Sep", "Oct",
    "Nov", "Dec"].map String.toList).getD (m - 1) []

/-- `start_dt.strftime("%d/%b/%Y").upper()` of the upcoming-jobs path. -/
def fmtDateStr (tz : TZ) (dt : ZonedDT) : Str :=
  let c := zdtCivil tz dt
  pyUpper (pad2 c.day ++ ['/'] ++ monthAbbr c.month ++ ['/'] ++ natStr c.year)

/-- `dt.strftime("%H:%M")`. -/
def fmtHM (tz : TZ) (dt : ZonedDT) : Str :=
  let c := zdtCivil tz dt
  pad2 c.hour ++ [':'] ++ pad2 c.minute

/-- The `"{start} – {end}"` time-range string (en dash, as in the source). -/
def fmtTimeStr (tz : TZ) (s e : ZonedDT) : Str :=
  fmtHM tz s ++ [' ', '–', ' '] ++ fmtHM tz e

/-- A UTC offset in minutes as `isoformat` prints it, e.g. `+11:00`. -/
def fmtOffset (off : Int) : Str :=
  (if off < 0 then ['-'] else ['+']) ++
    pad2 (off.natAbs / 60) ++ [':'] ++ pad2 (off.natAbs % 60)

/-- `dt.isoformat()` of a zone-aware datetime with zero microseconds. -/
def fmtIso (tz : TZ) (dt : ZonedDT) : Str :=
  let c := zdtCivil tz dt
  pad4 c.year ++ ['-'] ++ pad2 c.month ++ ['-'] ++ pad2 c.day ++ ['T'] ++
    pad2 c.hour ++ [':'] ++ pad2 c.minute ++ [':'] ++ pad2 c.second ++
    fmtOffset (zdtOffset tz dt)

/-- A row of the upcoming-jobs table (`get_upcoming_events` output). -/
structure Row where
  date_str : Str
  time_str : Str
  title : Str
  description : Str
  deriving DecidableEq, Repr

/-- A FullCalendar event of the `events_feed` output. -/
structure CalEvent where
  title : Str
  startIso : Str
  endIso : Str
  description : Str
  deriving DecidableEq, Repr

/-- Formatting of a resolved record in the upcoming-jobs path. -/
def rowOfResolved (tz : TZ) (q : Resolved) : Row :=
  { date_str := fmtDateStr tz q.startDT
    time_str := fmtTimeStr tz q.startDT q.endDT
    title := q.title
    description := q.description }

/-- Formatting of a resolved record in the calendar-feed path. -/
def calOfResolved (tz : TZ) (q : Resolved) : CalEvent :=
  { title := q.title
    startIso := fmtIso tz q.startDT
    endIso := fmtIso tz q.endDT
    description := q.description }

/-- One record of the upcoming-jobs path, end to end: resolution, drop
test, then display formatting, exactly as the loop body at lines 399-457. -/
def processEventU (tz : TZ) (ev : RawEvent) : Option Row :=
  match resolveStartU ev, resolveEndU ev with
  | some s, some e =>
      some { date_str := fmtDateStr tz s
             time_str := fmtTimeStr tz s e
             title := titleOfIcsU ev.ics
             description := descOfIcsU ev.ics }
  | _, _ => none

/-- One record of the calendar-feed path, end to end, as the loop body at
lines 964-1019. -/
def processEventF (tz : TZ) (ev : RawEvent) : Option CalEvent :=
  match resolveStartF ev, resolveEndF ev with
  | some s, some e =>
      some { title := titleOfIcsF ev.ics
             startIso := fmtIso tz s
             endIso := fmtIso tz e
             description := descOfIcsF ev.ics }
  | _, _ => none

/-! ## Session gate -/

/-- The inbound request: cookies, form fields and query arguments, each an
association list looked up by `MultiDict.get`. -/
structure Request where
  cookies : List (Str × Str)
  form : List (Str × Str)
  args : List (Str × Str)

/-- `d.get(k)`: the first binding of `k`, if any. -/
def assocGet (kvs : List (Str × Str)) (k : Str) : Option Str :=
  (kvs.find? (fun p => p.1 == k)).map (fun p => p.2)

/-- The `auth_ok` cookie name. -/
def authCookie : Str := "auth_ok".toList

/-- The accepted token literal `yes`. -/
def yesTok : Str := "yes".toList

/-- The `instance_id` cookie / form field name. -/
def instanceCookie : Str := "instance_id".toList

/-- `is_authorized`: the `auth_ok` cookie (defaulting to the empty string)
equals the accepted literal `yes`. -/
def is_authorized (req : Request) : Bool :=
  (assocGet req.cookies authCookie).getD [] = yesTok

/-- `check_pin`: plain equality of the submitted value against the
configured `ACCESS_PIN`. -/
def check_pin (submitted_pin accessPin : Str) : Bool :=
  submitted_pin = accessPin

/-! ## Instance directory -/

/-- One record of the vendor directory response: `instance_id`, the name
under `settings` (`none` when absent, empty or null after the source's
`or`-chain), and the `state` field. -/
structure RawInstance where
  instance_id : Option Str
  settings_name : Option Str
  state : Option Str
  deriving DecidableEq, Repr

/-- An instance descriptor `{"id", "name"}`. -/
structure Instance where
  id : Str
  name : Str
  deriving DecidableEq, Repr

/-- The module-level `_instances_cache = {"ts": 0, "data": []}`. -/
structure CacheState where
  ts : Int
  data : List Instance
  deriving DecidableEq, Repr

/-- The outcome of one vendor directory `GET`: a raised transport/decode
exception, a non-success response, or a decoded `all_instances` list. -/
inductive DirOutcome where
  | exn
  | httpError
  | success (raw : List RawInstance)
  deriving DecidableEq, Repr

/-- The outcome of the `POST /turn_on|turn_off` call. -/
inductive PostOutcome where
  | exn (msg : Str)
  | resp (ok : Bool) (status : Nat)
  deriving DecidableEq, Repr

/-- The outcome of the scheduling `GET /events` call. -/
inductive SchedOutcome where
  | exn
  | httpError
  | success (events : List RawEvent)
  deriving DecidableEq, Repr

/-- An observable outbound vendor interaction. -/
inductive VendorCall where
  | directory
  | eegPost (action : Str)
  | schedFetch (startTs endTs : Int)
  deriving DecidableEq, Repr

/-- The loop body building directory items: skip a record lacking a
(truthy) `instance_id`; the display name is `settings.name` when truthy,
else the id. -/
def itemOf (inst : RawInstance) : Option Instance :=
  match inst.instance_id with
  | none => none
  | some iid =>
      if iid = [] then none
      else
        some { id := iid
               name := match inst.settings_name with
                       | some n => if n ≠ [] then n else iid
                       | none => iid }

/-- `items.sort(key=lambda x: x["name"].lower())`: the comparison. -/
def nameLe (a b : Instance) : Bool := strLe (pyLower a.name) (pyLower b.name)

/-- Stable insertion of one element into a name-sorted list. -/
def insertItem (x : Instance) : List Instance → List Instance
  | [] => [x]
  | y :: ys => if nameLe x y then x :: y :: ys else y :: insertItem x ys

/-- Stable sort by lower-cased name: the unique stable sort, hence equal
to the output of Python's `list.sort` with that key. -/
def sortItems : List Instance → List Instance
  | [] => []
  | x :: xs => insertItem x (sortItems xs)

/-- The value, cache and vendor calls of one `fetch_all_instances` run. -/
structure FetchResult where
  items : List Instance
  cache : CacheState
  calls : List VendorCall
  deriving DecidableEq, Repr

/--
`fetch_all_instances` (lines 61-97): serve the cached snapshot when
`force` is false, the cached data is non-empty and less than 60 seconds
old; fail soft to `[]` on a missing key, a transport exception or a
non-success response (leaving the cache untouched); on success build,
sort and cache the descriptor list.
-/
def fetch_all_instances (force : Bool) (now : Int) (apiKey : Option Str)
    (outcome : DirOutcome) (cache : CacheState) : FetchResult :=
  if !force ∧ cache.data ≠ [] ∧ now - cache.ts < 60 then
    ⟨cache.data, cache, []⟩
  else if apiKey.isNone then ⟨[], cache, []⟩
  else
    match outcome with
    | .exn => ⟨[], cache, [.directory]⟩
    | .httpError => ⟨[], cache, [.directory]⟩
    | .success raw =>
        let items := sortItems (raw.filterMap itemOf)
        ⟨items, ⟨now, items⟩, [.directory]⟩

/--
`current_instance_id` (lines 100-115): the `instance_id` cookie when
truthy; else the first entry of `fetch_all_instances()`; else the
configured `DEFAULT_INSTANCE_ID`.
-/
def current_instance_id (req : Request) (now : Int) (apiKey : Option Str)
    (outcome : DirOutcome) (cache : CacheState) (defaultId : Str) :
    Str × List VendorCall :=
  let cid := (assocGet req.cookies instanceCookie).getD []
  if cid ≠ [] then (cid, [])
  else
    let r := fetch_all_instances false now apiKey outcome cache
    match r.items with
    | i :: _ => (i.id, r.calls)
    | [] => (defaultId, r.calls)

/-! ## Device-control client -/

/-- The placeholder name `(No instance found)` of `eeg_status`. -/
def noInstanceFound : Str := "(No instance found)".toList

/-- The placeholder state `UNKNOWN`. -/
def unknownState : Str := "UNKNOWN".toList

/-- The default name `Unknown instance` when a found record lacks one. -/
def unknownInstanceName : Str := "Unknown instance".toList

/--
`fetch_instance_info` (lines 122-150): its own directory `GET`
(`infoOutcome`), failing soft to `none` on a missing key, an exception or
a non-success response; on success, resolve the active id (which may
itself consult the cached directory) and linear-scan `all_instances` for
it.
-/
def fetch_instance_info (req : Request) (now : Int) (apiKey : Option Str)
    (infoOutcome dirOutcome : DirOutcome) (cache : CacheState)
    (defaultId : Str) : Option RawInstance × List VendorCall :=
  if apiKey.isNone then (none, [])
  else
    match infoOutcome with
    | .exn => (none, [.directory])
    | .httpError => (none, [.directory])
    | .success raw =>
        let r := current_instance_id req now apiKey dirOutcome cache defaultId
        (raw.find? (fun inst => inst.instance_id == some r.1),
          .directory :: r.2)

/--
`eeg_status` (lines 153-164): `(name, state)` of the resolved instance,
or the placeholder pair when nothing resolved.
-/
def eeg_status (req : Request) (now : Int) (apiKey : Option Str)
    (infoOutcome dirOutcome : DirOutcome) (cache : CacheState)
    (defaultId : Str) : (Str × Str) × List VendorCall :=
  let r := fetch_instance_info req now apiKey infoOutcome dirOutcome cache defaultId
  match r.1 with
  | none => ((noInstanceFound, unknownState), r.2)
  | some info =>
      (((match info.settings_name with
         | some n => n
         | none => unknownInstanceName),
        info.state.getD unknownState), r.2)

/-- The `turn_on` action literal. -/
def turnOnAct : Str := "turn_on".toList

/-- The `turn_off` action literal. -/
def turnOffAct : Str := "turn_off".toList

/-- `abort(code, msg)`: the fatal HTTP error Flask raises. -/
structure HttpAbort where
  code : Nat
  msg : Str
  deriving DecidableEq, Repr

/-- `abort(400, "Invalid action")`. -/
def invalidActionAbort : HttpAbort := ⟨400, "Invalid action".toList⟩

/-- `abort(500, "EEG_API_KEY is not set on the server")`. -/
def missingKeyAbort : HttpAbort :=
  ⟨500, "EEG_API_KEY is not set on the server".toList⟩

/-- The fixed START confirmation. -/
def startedMsg : Str := "Lexi Live started ✅".toList

/-- The fixed STOP confirmation. -/
def stoppedMsg : Str := "Lexi Live stopped ⛔".toList

/--
`eeg_post` (lines 167-200): abort on an unrecognized action or a missing
credential; otherwise resolve the active instance, issue one `POST` and
map its outcome to `(ok, message)` with no retry and no exception.
-/
def eeg_post (action : Str) (req : Request) (now : Int) (apiKey : Option Str)
    (dirOutcome : DirOutcome) (cache : CacheState) (defaultId : Str)
    (outcome : PostOutcome) :
    Except HttpAbort (Bool × Str) × List VendorCall :=
  if action ≠ turnOnAct ∧ action ≠ turnOffAct then
    (.error invalidActionAbort, [])
  else if apiKey.isNone then (.error missingKeyAbort, [])
  else
    let r := current_instance_id req now apiKey dirOutcome cache defaultId
    match outcome with
    | .exn m =>
        (.ok (false, "Request error: ".toList ++ m), r.2 ++ [.eegPost action])
    | .resp true _ =>
        (.ok (true, if action = turnOnAct then startedMsg else stoppedMsg),
          r.2 ++ [.eegPost action])
    | .resp false status =>
        (.ok (false, "Request failed (".toList ++ natStr status ++ [')']),
          r.2 ++ [.eegPost action])

/-- The tuple `("ON", "RUNNING", "ACTIVE")`. -/
def greenStates : List Str :=
  [("ON").toList, ("RUNNING").toList, ("ACTIVE").toList]

/-- The tuple `("OFF", "STOPPED", "IDLE")`. -/
def redStates : List Str :=
  [("OFF").toList, ("STOPPED").toList, ("IDLE").toList]

/-- The green pill `#28a745`. -/
def GREEN : Str := "#28a745".toList

/-- The red pill `#dc3545`. -/
def RED : Str := "#dc3545".toList

/-- The grey pill `#6c757d`. -/
def GREY : Str := "#6c757d".toList

/--
`pick_badge_color` (lines 203-213): uppercase the state (a falsy state
becomes `UNKNOWN`), then ON/RUNNING/ACTIVE are green, OFF/STOPPED/IDLE
red, anything else grey.
-/
def pick_badge_color (state_text : Str) : Str :=
  let st_upper := pyUpper (if state_text = [] then unknownState else state_text)
  if st_upper ∈ greenStates then GREEN
  else if st_upper ∈ redStates then RED
  else GREY

/-! ## Schedule ingestion -/

/--
`get_upcoming_events` (lines 360-459): fail soft on a missing key;
request the records for the window `[now, now + 30 days]` (aware-datetime
arithmetic makes the upper bound exactly `now + 2592000` epoch seconds);
fail soft to `[]` on an exception or non-success response; else process
each record with the extraction/fallback/drop logic and format the rows.
-/
def get_upcoming_events (now : Int) (apiKey : Option Str)
    (outcome : SchedOutcome) (tz : TZ) : List Row × List VendorCall :=
  if apiKey.isNone then ([], [])
  else
    let start_ts := now
    let end_ts := now + 2592000
    match outcome with
    | .exn => ([], [.schedFetch start_ts end_ts])
    | .httpError => ([], [.schedFetch start_ts end_ts])
    | .success evs =>
        (evs.filterMap (processEventU tz), [.schedFetch start_ts end_ts])

/-! ## Request handlers -/

/--
The per-request environment: configuration (`apiKey`, `defaultId`), the
clock, a snapshot of the module-level cache, the outcomes the vendor
endpoints would produce if called, the zone data, and the standard
library's ISO-8601 parser (`datetime.fromisoformat`, external and passed
in as a function).  Handlers are modelled against this fixed snapshot;
the cache replacement itself is modelled inside `fetch_all_instances`.
-/
structure Ctx where
  now : Int
  apiKey : Option Str
  cache : CacheState
  dirOutcome : DirOutcome
  infoOutcome : DirOutcome
  postOutcome : PostOutcome
  schedOutcome : SchedOutcome
  tz : TZ
  isoParse : Str → Option Civil
  defaultId : Str

/-- The flash text `Please enter PIN first.`. -/
def pleaseEnterPin : Str := "Please enter PIN first.".toList

/-- The default flash `PIN accepted.`. -/
def pinAccepted : Str := "PIN accepted.".toList

/-- A handler's response, with the HTML rendering elided: each variant
carries exactly the data the corresponding template is rendered from. -/
inductive Response where
  | lockPage (err : Option Str)
  | homePage (name state badge : Str) (instances : List Instance)
      (cid : Str) (flash : Str)
  | redirectHome
  | redirectLock
  | setCookieRedirect (cookie value : Str)
  | upcomingPage (rows : List Row)
  | calendarPage
  | jsonLocked
  | statusJson (name state badge : Str)
  | jsonList (evs : List CalEvent)
  | aborted (a : HttpAbort)

/-- `render_home` (lines 509-657): status read-through, badge, instance
selector and active id, with the given flash message. -/
def render_home (req : Request) (ctx : Ctx) (flash : Option Str) :
    Response × List VendorCall :=
  let s := eeg_status req ctx.now ctx.apiKey ctx.infoOutcome ctx.dirOutcome
    ctx.cache ctx.defaultId
  let badge := pick_badge_color s.1.2
  let r := fetch_all_instances false ctx.now ctx.apiKey ctx.dirOutcome ctx.cache
  let c := current_instance_id req ctx.now ctx.apiKey ctx.dirOutcome ctx.cache
    ctx.defaultId
  (.homePage s.1.1 s.1.2 badge r.items c.1 (flash.getD pinAccepted),
    s.2 ++ r.calls ++ c.2)

/-- Route `GET /` (lines 833-837). -/
def home (req : Request) (ctx : Ctx) : Response × List VendorCall :=
  if !is_authorized req then (.lockPage none, [])
  else render_home req ctx none

/-- Route `POST /set_instance` (lines 840-853): validate the candidate id
against the current directory before committing it to the cookie. -/
def set_instance (req : Request) (ctx : Ctx) : Response × List VendorCall :=
  if !is_authorized req then (.lockPage (some pleaseEnterPin), [])
  else
    let iid := pyStrip ((assocGet req.form instanceCookie).getD [])
    let r := fetch_all_instances false ctx.now ctx.apiKey ctx.dirOutcome ctx.cache
    if !(r.items.any (fun i => i.id == iid)) then (.redirectHome, r.calls)
    else (.setCookieRedirect instanceCookie iid, r.calls)

/-- Route `GET /upcoming` (lines 856-860). -/
def upcoming_page (req : Request) (ctx : Ctx) : Response × List VendorCall :=
  if !is_authorized req then (.redirectLock, [])
  else
    let r := get_upcoming_events ctx.now ctx.apiKey ctx.schedOutcome ctx.tz
    (.upcomingPage r.1, r.2)

/-- Route `POST /on` (lines 881-886). -/
def turn_on (req : Request) (ctx : Ctx) : Response × List VendorCall :=
  if !is_authorized req then (.lockPage (some pleaseEnterPin), [])
  else
    let p := eeg_post turnOnAct req ctx.now ctx.apiKey ctx.dirOutcome ctx.cache
      ctx.defaultId ctx.postOutcome
    match p.1 with
    | .error a => (.aborted a, p.2)
    | .ok (_, msg) =>
        let h := render_home req ctx (some msg)
        (h.1, p.2 ++ h.2)

/-- Route `POST /off` (lines 889-894). -/
def turn_off (req : Request) (ctx : Ctx) : Response × List VendorCall :=
  if !is_authorized req then (.lockPage (some pleaseEnterPin), [])
  else
    let p := eeg_post turnOffAct req ctx.now ctx.apiKey ctx.dirOutcome ctx.cache
      ctx.defaultId ctx.postOutcome
    match p.1 with
    | .error a => (.aborted a, p.2)
    | .ok (_, msg) =>
        let h := render_home req ctx (some msg)
        (h.1, p.2 ++ h.2)

/-- Route `GET /status.json` (lines 897-907). -/
def status_json (req : Request) (ctx : Ctx) : Response × List VendorCall :=
  if !is_authorized req then (.jsonLocked, [])
  else
    let s := eeg_status req ctx.now ctx.apiKey ctx.infoOutcome ctx.dirOutcome
      ctx.cache ctx.defaultId
    (.statusJson s.1.1 s.1.2 (pick_badge_color s.1.2), s.2)

/-- Route `GET /calendar` (lines 910-914). -/
def calendar_page (req : Request) (_ctx : Ctx) : Response × List VendorCall :=
  if !is_authorized req then (.lockPage none, [])
  else (.calendarPage, [])

/-- The `start` query-argument name. -/
def startKey : Str := "start".toList

/-- The `end` query-argument name. -/
def endKey : Str := "end".toList

/--
Route `GET /events.json` (lines 917-1021): gate, validate the window
bounds (`parse_iso_loose` strips every `Z` then parses; a parse failure
returns the empty list), then fetch and process the raw records with the
duplicated extraction logic.
-/
def events_feed (req : Request) (ctx : Ctx) : Response × List VendorCall :=
  if !is_authorized req then (.jsonLocked, [])
  else
    let start_str := (assocGet req.args startKey).getD []
    let end_str := (assocGet req.args endKey).getD []
    if start_str = [] ∨ end_str = [] then (.jsonList [], [])
    else
      match ctx.isoParse (removeZ start_str) with
      | none => (.jsonList [], [])
      | some cs =>
          match ctx.isoParse (removeZ end_str) with
          | none => (.jsonList [], [])
          | some ce =>
              let start_ts := ctx.tz.epochOfCivil cs
              let end_ts := ctx.tz.epochOfCivil ce
              match ctx.schedOutcome with
              | .exn => (.jsonList [], [.schedFetch start_ts end_ts])
              | .httpError => (.jsonList [], [.schedFetch start_ts end_ts])
              | .success evs =>
                  (.jsonList (evs.filterMap (processEventF ctx.tz)),
                    [.schedFetch start_ts end_ts])

/-! ## Concrete fixtures for witnesses and counterexamples -/

/-- The text block of the specification's example booking record. -/
def teamSyncIcs : Str :=
  ("SUMMARY:Team Sync\r\nDTSTART;TZID=Australia/Sydney:20250301T090000" ++
    "\r\nDTEND;TZID=Australia/Sydney:20250301T100000").toList

/-- The specification's example booking record. -/
def teamSyncEv : RawEvent :=
  { ics := teamSyncIcs, start_time := none, end_time := none }

/-- A record with no markers and no numeric epoch fields. -/
def bareEv : RawEvent := { ics := [], start_time := none, end_time := none }

/-- A request carrying no cookies, form fields or arguments. -/
def reqBare : Request := { cookies := [], form := [], args := [] }

/-- A cache holding one previously fetched descriptor, captured at 0. -/
def cacheNE : CacheState := ⟨0, [⟨"i1".toList, "Alpha".toList⟩]⟩

/-- A directory response with a single instance. -/
def rawOne : List RawInstance :=
  [⟨some ("i1".toList), some ("Alpha".toList), none⟩]

/-- An authorized request (`auth_ok=yes`) with a selected instance. -/
def reqAuth : Request :=
  { cookies := [(authCookie, yesTok), (instanceCookie, "inst9".toList)]
    form := [], args := [] }

/-- A request whose `instance_id` cookie selects `i1`. -/
def reqI1 : Request :=
  { cookies := [(instanceCookie, "i1".toList)], form := [], args := [] }

/-- The suffix of the example text block after its `SUMMARY:` marker. -/
def teamSyncAfter : Str :=
  ("Team Sync\r\nDTSTART;TZID=Australia/Sydney:20250301T090000" ++
    "\r\nDTEND;TZID=Australia/Sydney:20250301T100000").toList

/-- Degenerate zone data for closed witnesses. -/
def tzZero : TZ :=
  { localOffset := fun _ => 0
    civilOfEpoch := fun _ => (⟨1970, 1, 1, 0, 0, 0⟩, 0)
    epochOfCivil := fun _ => 0 }

/-- A concrete request context for closed witnesses. -/
def ctxW : Ctx :=
  { now := 1000
    apiKey := some ("k".toList)
    cache := ⟨0, []⟩
    dirOutcome := .exn
    infoOutcome := .exn
    postOutcome := .exn []
    schedOutcome := .exn
    tz := tzZero
    isoParse := fun _ => none
    defaultId := "asr_instance_EUwk84qjnygKawQK".toList }

/-! ## Helper lemmas on the lexicographic order and the stable sort -/

theorem strLe_total (a b : Str) : strLe a b = true ∨ strLe b a = true := by
  induction a generalizing b with
  | nil => left; rfl
  | cons x xs ih =>
      cases b with
      | nil => right; rfl
      | cons y ys =>
          by_cases h1 : x.toNat < y.toNat
          · left; simp [strLe, h1]
          · by_cases h2 : y.toNat < x.toNat
            · right; simp [strLe, h1, h2]
            · have := ih ys
              rcases this with h | h
              · left; simp [strLe, h1, h2, h]
              · right; simp [strLe, h1, h2, h]

theorem strLe_trans {a b c : Str} (hab : strLe a b = true)
    (hbc : strLe b c = true) : strLe a c = true := by
  induction a generalizing b c with
  | nil => rfl
  | cons x xs ih =>
      cases b with
      | nil => simp [strLe] at hab
      | cons y ys =>
          cases c with
          | nil => simp [strLe] at hbc
          | cons z zs =>
              simp only [strLe] at hab hbc ⊢
              by_cases hxy : x.toNat < y.toNat
              · by_cases hyz : y.toNat < z.toNat
                · simp [show x.toNat < z.toNat by omega]
                · by_cases hzy : z.toNat < y.toNat
                  · simp [hyz, hzy] at hbc
                  · simp [show x.toNat < z.toNat by omega]
              · by_cases hyx : y.toNat < x.toNat
                · simp [hxy, hyx] at hab
                · by_cases hyz : y.toNat < z.toNat
                  · simp [show x.toNat < z.toNat by omega]
                  · by_cases hzy : z.toNat < y.toNat
                    · simp [hyz, hzy] at hbc
                    · have hxz : ¬ x.toNat < z.toNat := by omega
                      have hzx : ¬ z.toNat < x.toNat := by omega
                      simp only [hxy, hyx, if_neg, if_false] at hab
                      simp only [hyz, hzy, if_neg, if_false] at hbc
                      simp only [hxz, hzx, if_neg, if_false]
                      simp_all
                      exact ih hab hbc

theorem nameLe_total (a b : Instance) : nameLe a b = true ∨ nameLe b a = true :=
  strLe_total _ _

theorem nameLe_trans {a b c : Instance} (hab : nameLe a b = true)
    (hbc : nameLe b c = true) : nameLe a c = true :=
  strLe_trans hab hbc

theorem mem_insertItem {z x : Instance} {l : List Instance} :
    z ∈ insertItem x l ↔ z = x ∨ z ∈ l := by
  induction l with
  | nil => simp [insertItem]
  | cons y ys ih =>
      simp only [insertItem]
      split
      · simp [List.mem_cons]
      · simp only [List.mem_cons, ih]
        tauto

theorem insertItem_pairwise {x : Instance} {l : List Instance}
    (h : l.Pairwise (fun a b => nameLe a b = true)) :
    (insertItem x l).Pairwise (fun a b => nameLe a b = true) := by
  induction l with
  | nil => simp [insertItem]
  | cons y ys ih =>
      rcases List.pairwise_cons.mp h with ⟨hy, hys⟩
      simp only [insertItem]
      split
      · rename_i hxy
        refine List.pairwise_cons.mpr ⟨?_, h⟩
        intro z hz
        rcases List.mem_cons.mp hz with rfl | hz
        · exact hxy
        · exact nameLe_trans hxy (hy z hz)
      · rename_i hxy
        refine List.pairwise_cons.mpr ⟨?_, ih hys⟩
        intro z hz
        rcases mem_insertItem.mp hz with rfl | hz
        · rcases nameLe_total z y with h1 | h1
          · exact absurd h1 hxy
          · exact h1
        · exact hy z hz

theorem sortItems_pairwise (l : List Instance) :
    (sortItems l).Pairwise (fun a b => nameLe a b = true) := by
  induction l with
  | nil => exact List.Pairwise.nil
  | cons x xs ih => exact insertItem_pairwise ih

/-! ## Helper lemmas on the directory cache -/

/-- A fresh non-empty snapshot is served from the cache with no call. -/
theorem fetch_hit {now : Int} {k : Option Str} {o : DirOutcome}
    {cache : CacheState} (h1 : cache.data ≠ []) (h2 : now - cache.ts < 60) :
    fetch_all_instances false now k o cache = ⟨cache.data, cache, []⟩ := by
  simp [fetch_all_instances, h1, h2]

/-- Every run either returns exactly what it left in the cache, or `[]`. -/
theorem fetch_items_cases (now : Int) (k : Option Str) (o : DirOutcome)
    (cache : CacheState) :
    (fetch_all_instances false now k o cache).items =
      (fetch_all_instances false now k o cache).cache.data ∨
    (fetch_all_instances false now k o cache).items = [] := by
  unfold fetch_all_instances
  split
  · left; rfl
  · split
    · right; rfl
    · cases o with
      | exn => right; rfl
      | httpError => right; rfl
      | success raw => left; rfl

/-! ## Claim theorems -/

/--
**C8.** `classify_badge` (source: `pick_badge_color`, lines 203-213) is a
total, deterministic function on state strings: every input yields exactly
one of the three pill colors (totality and determinism are inherent in its
being a Lean function); case-insensitively, ON/RUNNING/ACTIVE map to
green, OFF/STOPPED/IDLE map to red, and every other input — including the
empty string and unrecognized vendor states — maps to grey; in particular
`"on"` and `"ON"` both map to green.
-/
theorem C8_classify_badge (s : Str) :
    (pick_badge_color s = GREEN ∨ pick_badge_color s = RED ∨
      pick_badge_color s = GREY) ∧
    (pyUpper s ∈ greenStates → pick_badge_color s = GREEN) ∧
    (pyUpper s ∈ redStates → pick_badge_color s = RED) ∧
    (pyUpper s ∉ greenStates → pyUpper s ∉ redStates →
      pick_badge_color s = GREY) ∧
    pick_badge_color (("on").toList) = GREEN ∧
    pick_badge_color (("ON").toList) = GREEN ∧
    pick_badge_color [] = GREY := by
  by_cases hs : s = []
  · subst hs
    refine ⟨by decide, ?_, ?_, ?_, by decide, by decide, by decide⟩
    · intro h
      exact absurd h (by decide)
    · intro h
      exact absurd h (by decide)
    · intro h1 h2
      decide
  · refine ⟨?_, ?_, ?_, ?_, by decide, by decide, by decide⟩ <;>
      simp only [pick_badge_color, if_neg hs]
    · split_ifs <;> tauto
    · intro h
      rw [if_pos h]
    · intro h
      simp only [redStates, List.mem_cons, List.not_mem_nil, or_false] at h
      rcases h with h | h | h <;> rw [h] <;> decide
    · intro h1 h2
      rw [if_neg h1, if_neg h2]

/--
**C8 witness.**  The classification applied at concrete inputs through
the theorem.
-/
theorem C8_classify_badge_witness :
    pick_badge_color (("Running").toList) = GREEN ∧
    pick_badge_color (("off").toList) = RED ∧
    pick_badge_color (("weird").toList) = GREY :=
  ⟨(C8_classify_badge (("Running").toList)).2.1 (by decide),
   (C8_classify_badge (("off").toList)).2.2.1 (by decide),
   (C8_classify_badge (("weird").toList)).2.2.2.1 (by decide) (by decide)⟩

/--
**C4.** `resolve_active_instance` (source: `current_instance_id`, lines
100-115): a non-empty client-supplied id (the `instance_id` cookie) is
returned as-is, with no directory lookup and hence no membership
validation; an absent or empty id falls back to the first entry of the
directory delivered by `list_instances(force=false)`; an empty directory
falls back to the configured id.  On a cache miss with a configured key,
that directory is the case-insensitively name-sorted build of the vendor
response, and `sortItems` always delivers a list sorted by the
case-insensitive name order.
-/
theorem C4_resolve_active_instance (req : Request) (now : Int)
    (apiKey : Option Str) (outcome : DirOutcome) (cache : CacheState)
    (defaultId : Str) (raw : List RawInstance) :
    (∀ cid, assocGet req.cookies instanceCookie = some cid → cid ≠ [] →
      current_instance_id req now apiKey outcome cache defaultId = (cid, [])) ∧
    ((assocGet req.cookies instanceCookie).getD [] = [] →
      ∀ i rest,
        (fetch_all_instances false now apiKey outcome cache).items = i :: rest →
        (current_instance_id req now apiKey outcome cache defaultId).1 = i.id) ∧
    ((assocGet req.cookies instanceCookie).getD [] = [] →
      (fetch_all_instances false now apiKey outcome cache).items = [] →
      (current_instance_id req now apiKey outcome cache defaultId).1 = defaultId) ∧
    (outcome = .success raw → ¬(cache.data ≠ [] ∧ now - cache.ts < 60) →
      apiKey.isNone = false →
      (fetch_all_instances false now apiKey outcome cache).items =
        sortItems (raw.filterMap itemOf)) ∧
    (∀ l, (sortItems l).Pairwise (fun a b => nameLe a b = true)) := by
  refine ⟨?_, ?_, ?_, ?_, sortItems_pairwise⟩
  · intro cid h hne
    simp [current_instance_id, h, hne]
  · intro h i rest hitems
    simp [current_instance_id, h, hitems]
  · intro h hitems
    simp [current_instance_id, h, hitems]
  · rintro rfl hmiss hk
    unfold fetch_all_instances
    rw [if_neg (by simpa using hmiss), hk]
    rfl

/--
**C4 witness.**  The three resolution outcomes and the sorted-directory
equation at concrete inputs through the theorem.
-/
theorem C4_resolve_active_instance_witness :
    current_instance_id reqAuth 1000 none .exn ⟨0, []⟩ [] =
      (("inst9").toList, []) ∧
    (current_instance_id reqBare 10 none .exn cacheNE []).1 = ("i1").toList ∧
    (current_instance_id reqBare 1000 none .exn ⟨0, []⟩
      (("fallback").toList)).1 = ("fallback").toList ∧
    (fetch_all_instances false 1000 (some (("k").toList)) (.success rawOne)
      ⟨0, []⟩).items = sortItems (rawOne.filterMap itemOf) :=
  ⟨(C4_resolve_active_instance reqAuth 1000 none .exn ⟨0, []⟩ [] []).1
      (("inst9").toList) (by decide) (by decide),
   (C4_resolve_active_instance reqBare 10 none .exn cacheNE [] []).2.1
      (by decide) ⟨("i1").toList, ("Alpha").toList⟩ [] (by decide),
   (C4_resolve_active_instance reqBare 1000 none .exn ⟨0, []⟩
      (("fallback").toList) []).2.2.1 (by decide) (by decide),
   (C4_resolve_active_instance reqBare 1000 (some (("k").toList))
      (.success rawOne) ⟨0, []⟩ [] rawOne).2.2.2.1 rfl (by decide) rfl⟩

/--
**C9 counterexample.**  On failure the placeholder pair the code returns
is `("(No instance found)", "UNKNOWN")`, not the claimed
`("unknown instance", "UNKNOWN")`.
-/
theorem C9_counterexample :
    (eeg_status reqBare 0 none .exn .exn ⟨0, []⟩ []).1 =
      (noInstanceFound, unknownState) ∧
    noInstanceFound ≠ ("unknown instance").toList := by decide

/--
**C9 (amended).**  `get_status` (source: `eeg_status` over
`fetch_instance_info`, lines 122-164) fetches the full instance list and
linear-scans it for the active instance id; whenever the credential is
missing, the call fails (transport or HTTP), or the id is not found, it
returns the placeholder pair `("(No instance found)", "UNKNOWN")` — and
on a hit it returns that record's name and state.  It never propagates a
failure: the embedding is a total function whose failure branches are
ordinary values.
-/
theorem C9_get_status_placeholder (req : Request) (now : Int)
    (apiKey : Option Str) (infoO dirO : DirOutcome) (cache : CacheState)
    (defaultId : Str) (raw : List RawInstance) :
    (apiKey = none →
      (eeg_status req now apiKey infoO dirO cache defaultId).1 =
        (noInstanceFound, unknownState)) ∧
    (infoO = .exn →
      (eeg_status req now apiKey infoO dirO cache defaultId).1 =
        (noInstanceFound, unknownState)) ∧
    (infoO = .httpError →
      (eeg_status req now apiKey infoO dirO cache defaultId).1 =
        (noInstanceFound, unknownState)) ∧
    (infoO = .success raw →
      raw.find? (fun inst => inst.instance_id ==
        some (current_instance_id req now apiKey dirO cache defaultId).1) =
          none →
      (eeg_status req now apiKey infoO dirO cache defaultId).1 =
        (noInstanceFound, unknownState)) ∧
    (∀ k inst, apiKey = some k → infoO = .success raw →
      raw.find? (fun inst2 => inst2.instance_id ==
        some (current_instance_id req now apiKey dirO cache defaultId).1) =
          some inst →
      (eeg_status req now apiKey infoO dirO cache defaultId).1 =
        ((match inst.settings_name with
          | some n => n
          | none => unknownInstanceName), inst.state.getD unknownState)) := by
  refine ⟨?_, ?_, ?_, ?_, ?_⟩
  · rintro rfl
    simp [eeg_status, fetch_instance_info]
  · rintro rfl
    cases apiKey <;> simp [eeg_status, fetch_instance_info]
  · rintro rfl
    cases apiKey <;> simp [eeg_status, fetch_instance_info]
  · rintro rfl hfind
    cases apiKey <;> simp [eeg_status, fetch_instance_info, hfind]
  · rintro k inst rfl rfl hfind
    simp [eeg_status, fetch_instance_info, hfind]

/--
**C9 witness.**  The placeholder on a missing credential and the found
case at concrete inputs through the theorem.
-/
theorem C9_get_status_placeholder_witness :
    (eeg_status reqBare 0 none .exn .exn ⟨0, []⟩ []).1 =
      (noInstanceFound, unknownState) ∧
    (eeg_status reqI1 0 (some (("k").toList)) (.success rawOne) .exn
      ⟨0, []⟩ []).1 = (("Alpha").toList, unknownState) :=
  ⟨(C9_get_status_placeholder reqBare 0 none .exn .exn ⟨0, []⟩ [] []).1 rfl,
   (C9_get_status_placeholder reqI1 0 (some (("k").toList)) (.success rawOne)
      .exn ⟨0, []⟩ [] rawOne).2.2.2.2 (("k").toList)
      ⟨some (("i1").toList), some (("Alpha").toList), none⟩ rfl rfl (by decide)⟩

/--
**C7.** `send_command` (source: `eeg_post`, lines 167-200) treats an
unrecognized action as a fatal caller error (`abort(400)`) and a missing
credential as a fatal configuration error surfaced distinctly
(`abort(500)`); with a recognized action and a configured credential, a
transport failure or a non-success response each yield `ok = false` with a
human-readable message and no exception (the result is an `Except.ok`) and
no retry (a single `POST` is modelled); a successful response yields
`ok = true` with a fixed confirmation that differs between START and STOP.
-/
theorem C7_send_command (action : Str) (req : Request) (now : Int)
    (k m : Str) (apiKey : Option Str) (d : DirOutcome) (cache : CacheState)
    (defaultId : Str) (status : Nat) (out : PostOutcome) :
    (action ≠ turnOnAct ∧ action ≠ turnOffAct →
      eeg_post action req now apiKey d cache defaultId out =
        (.error invalidActionAbort, [])) ∧
    ((action = turnOnAct ∨ action = turnOffAct) → apiKey = none →
      eeg_post action req now apiKey d cache defaultId out =
        (.error missingKeyAbort, [])) ∧
    invalidActionAbort ≠ missingKeyAbort ∧
    ((action = turnOnAct ∨ action = turnOffAct) →
      (eeg_post action req now (some k) d cache defaultId (.exn m)).1 =
        .ok (false, ("Request error: ").toList ++ m)) ∧
    ((action = turnOnAct ∨ action = turnOffAct) →
      (eeg_post action req now (some k) d cache defaultId
          (.resp false status)).1 =
        .ok (false, ("Request failed (").toList ++ natStr status ++ [')'])) ∧
    (eeg_post turnOnAct req now (some k) d cache defaultId
        (.resp true status)).1 = .ok (true, startedMsg) ∧
    (eeg_post turnOffAct req now (some k) d cache defaultId
        (.resp true status)).1 = .ok (true, stoppedMsg) ∧
    startedMsg ≠ stoppedMsg := by
  have hne : turnOnAct ≠ turnOffAct := by decide
  have hne2 : turnOffAct ≠ turnOnAct := by decide
  refine ⟨?_, ?_, by decide, ?_, ?_, ?_, ?_, by decide⟩
  · intro h
    simp [eeg_post, h.1, h.2]
  · rintro (rfl | rfl) rfl <;> simp [eeg_post, hne, hne2]
  · rintro (rfl | rfl) <;> simp [eeg_post, hne, hne2]
  · rintro (rfl | rfl) <;> simp [eeg_post, hne, hne2]
  · simp [eeg_post, hne, hne2]
  · simp [eeg_post, hne, hne2]

/--
**C7 witness.**  The three outcome classes at concrete inputs: a bogus
action aborts with 400, a missing key aborts with 500, and a transport
failure returns `ok = false` without an exception.
-/
theorem C7_send_command_witness :
    eeg_post (("bogus").toList) reqAuth 1000 none .exn ⟨0, []⟩ [] (.exn []) =
      (.error invalidActionAbort, []) ∧
    eeg_post turnOnAct reqAuth 1000 none .exn ⟨0, []⟩ [] (.exn []) =
      (.error missingKeyAbort, []) ∧
    (eeg_post turnOnAct reqAuth 1000 (("k").toList) .exn ⟨0, []⟩ []
        (.exn (("boom").toList))).1 =
      .ok (false, ("Request error: ").toList ++ ("boom").toList) :=
  ⟨(C7_send_command (("bogus").toList) reqAuth 1000 [] [] none .exn ⟨0, []⟩
      [] 0 (.exn [])).1 (by decide),
   (C7_send_command turnOnAct reqAuth 1000 [] [] none .exn ⟨0, []⟩
      [] 0 (.exn [])).2.1 (Or.inl rfl) rfl,
   (C7_send_command turnOnAct reqAuth 1000 (("k").toList) (("boom").toList)
      none .exn ⟨0, []⟩ [] 0 (.exn [])).2.2.2.1 (Or.inl rfl)⟩

/--
**C5 counterexample.**  With a non-empty previous snapshot (captured at 0)
and a cache miss at 100, a transport exception makes `fetch_all_instances`
return the empty sequence — not the previous cache contents, contrary to
the claim.
-/
theorem C5_counterexample :
    (fetch_all_instances false 100 (some (("k").toList)) .exn cacheNE).items
      ≠ cacheNE.data ∧
    (fetch_all_instances false 100 (some (("k").toList)) .exn cacheNE).items
      = [] := by decide

/--
**C5 (amended).**  When `list_instances` bypasses (`force`) or misses the
cache (empty cached data or an expired TTL) and the vendor directory call
fails — transport exception or non-success response — it returns the
*empty sequence* and leaves the previous cache contents in place
untouched; the previous snapshot is *not* returned.  It never raises: the
embedding is a total function whose failure branches are ordinary values.
-/
theorem C5_fetch_failure_empty (force : Bool) (now : Int) (k : Str)
    (cache : CacheState) (outcome : DirOutcome) :
    (force = true ∨ cache.data = [] ∨ 60 ≤ now - cache.ts) →
    (outcome = .exn ∨ outcome = .httpError) →
    fetch_all_instances force now (some k) outcome cache =
      ⟨[], cache, [.directory]⟩ := by
  intro hmiss hfail
  have hcond : ¬((!force) = true ∧ cache.data ≠ [] ∧ now - cache.ts < 60) := by
    rintro ⟨hf, hd, ht⟩
    rcases hmiss with rfl | h | h
    · simp at hf
    · exact hd h
    · omega
  rcases hfail with rfl | rfl <;>
    · unfold fetch_all_instances
      rw [if_neg hcond]
      rfl

/--
**C5 witness.**  The amended behaviour at a concrete stale non-empty
cache and a concrete transport failure.
-/
theorem C5_fetch_failure_empty_witness :
    fetch_all_instances false 100 (some (("k").toList)) .exn cacheNE =
      ⟨[], cacheNE, [.directory]⟩ :=
  C5_fetch_failure_empty false 100 (("k").toList) cacheNE .exn
    (Or.inr (Or.inr (by decide))) (Or.inl rfl)

/--
**C6 counterexample.**  A cached snapshot exists (captured at 100, holding
the empty list of descriptors — e.g. after a successful fetch of an empty
directory) and only 10 seconds have elapsed, yet `list_instances(force=
false)` issues a vendor call and returns something other than the cached
snapshot: the source's cache-hit test `_instances_cache["data"]` requires
the cached data to be non-empty, not merely present.
-/
theorem C6_counterexample :
    (fetch_all_instances false 110 (some (("k").toList)) (.success rawOne)
      ⟨100, []⟩).calls ≠ [] ∧
    (fetch_all_instances false 110 (some (("k").toList)) (.success rawOne)
      ⟨100, []⟩).items ≠ (⟨100, ([] : List Instance)⟩ : CacheState).data := by
  decide

/--
**C6 (amended).**  If `list_instances(force=false)` is called when a
*non-empty* cached snapshot exists and less than 60 seconds have elapsed
since its capture, it returns the cached snapshot without any vendor
call; hence after any call that returns a non-empty directory, a second
`force=false` call within 60 seconds of the resulting snapshot's capture
issues no vendor call.
-/
theorem C6_cache_hit (now now2 : Int) (apiKey apiKey2 : Option Str)
    (outcome outcome2 : DirOutcome) (cache : CacheState) :
    (cache.data ≠ [] → now - cache.ts < 60 →
      fetch_all_instances false now apiKey outcome cache =
        ⟨cache.data, cache, []⟩) ∧
    ((fetch_all_instances false now apiKey outcome cache).items ≠ [] →
      now2 - (fetch_all_instances false now apiKey outcome cache).cache.ts < 60 →
      (fetch_all_instances false now2 apiKey2 outcome2
        (fetch_all_instances false now apiKey outcome cache).cache).calls = []) := by
  constructor
  · intro h1 h2
    exact fetch_hit h1 h2
  · intro hne hlt
    rcases fetch_items_cases now apiKey outcome cache with hc | hc
    · have hdata : (fetch_all_instances false now apiKey outcome cache).cache.data ≠ [] := by
        rw [← hc]; exact hne
      rw [fetch_hit hdata hlt]
    · exact absurd hc hne

/--
**C6 witness.**  The amended behaviour at a concrete fresh non-empty
snapshot, and the two-calls corollary at a concrete first fetch.
-/
theorem C6_cache_hit_witness :
    fetch_all_instances false 10 (some (("k").toList)) .exn cacheNE =
      ⟨cacheNE.data, cacheNE, []⟩ ∧
    (fetch_all_instances false 150 none .httpError
      (fetch_all_instances false 110 (some (("k").toList)) (.success rawOne)
        ⟨100, []⟩).cache).calls = [] :=
  ⟨(C6_cache_hit 10 0 (some (("k").toList)) none .exn .exn cacheNE).1
      (by decide) (by decide),
   (C6_cache_hit 110 150 (some (("k").toList)) none (.success rawOne)
      .httpError ⟨100, []⟩).2 (by decide) (by decide)⟩

/--
**C1.** Every protected operation checks `is_authorized` first and
returns before touching the Device Control Client or the Schedule
Ingestion Pipeline: when the token check fails, the handler performs no
vendor interaction at all — in particular no `eeg_post` command and no
schedule fetch — whatever the rest of the request and environment are.
-/
theorem C1_unauthorized_no_vendor_calls (req : Request) (ctx : Ctx)
    (h : is_authorized req = false) :
    (home req ctx).2 = [] ∧ (set_instance req ctx).2 = [] ∧
    (upcoming_page req ctx).2 = [] ∧ (turn_on req ctx).2 = [] ∧
    (turn_off req ctx).2 = [] ∧ (status_json req ctx).2 = [] ∧
    (calendar_page req ctx).2 = [] ∧ (events_feed req ctx).2 = [] := by
  refine ⟨?_, ?_, ?_, ?_, ?_, ?_, ?_, ?_⟩ <;>
    simp [home, set_instance, upcoming_page, turn_on, turn_off, status_json,
      calendar_page, events_feed, h]

/--
**C1 witness.**  A request with no `auth_ok` cookie performs no vendor
call on the command route and the calendar feed route.
-/
theorem C1_unauthorized_no_vendor_calls_witness :
    is_authorized reqBare = false ∧ (turn_on reqBare ctxW).2 = [] ∧
    (events_feed reqBare ctxW).2 = [] :=
  ⟨by decide,
   (C1_unauthorized_no_vendor_calls reqBare ctxW (by decide)).2.2.2.1,
   (C1_unauthorized_no_vendor_calls reqBare ctxW (by decide)).2.2.2.2.2.2.2⟩

/--
**C2.** Field extraction in the pipeline (source: `get_upcoming_events`,
lines 399-459): the title is the text after the `SUMMARY:` marker up to
the next CRLF (stripped), defaulting to the fixed placeholder when the
marker is absent or the text strips to empty; start/end come from
parsing the compact `YYYYMMDDTHHMMSS` value after the zone-qualified
`DTSTART`/`DTEND` marker, localized to the configured zone, falling back
to the record's numeric epoch field when the marker is absent or its
value unparsable; and the specification's example record yields exactly
one event titled `Team Sync` running 09:00-10:00 on 2025-03-01 in that
zone.
-/
theorem C2_booking_extraction (ics : Str) (ev : RawEvent) (e : Int) :
    (∀ after, afterFirst summaryMark ics = some after →
      pyStrip (beforeFirst crlf after) ≠ [] →
      titleOfIcsU ics = pyStrip (beforeFirst crlf after)) ∧
    (afterFirst summaryMark ics = none → titleOfIcsU ics = defaultTitle) ∧
    (∀ after, afterFirst summaryMark ics = some after →
      pyStrip (beforeFirst crlf after) = [] →
      titleOfIcsU ics = defaultTitle) ∧
    (∀ after c, afterFirst (dtstartTag ++ tzidMark) ev.ics = some after →
      parseCompactTS (pyStrip (beforeFirst crlf after)) = some c →
      resolveStartU ev = some (.localized c)) ∧
    (∀ after c, afterFirst (dtendTag ++ tzidMark) ev.ics = some after →
      parseCompactTS (pyStrip (beforeFirst crlf after)) = some c →
      resolveEndU ev = some (.localized c)) ∧
    (extract_dtU ev.ics dtstartTag = none → ev.start_time = some e →
      resolveStartU ev = some (.fromEpoch e)) ∧
    (extract_dtU ev.ics dtendTag = none → ev.end_time = some e →
      resolveEndU ev = some (.fromEpoch e)) ∧
    List.filterMap quadU [teamSyncEv] =
      [⟨("Team Sync").toList, [], .localized ⟨2025, 3, 1, 9, 0, 0⟩,
        .localized ⟨2025, 3, 1, 10, 0, 0⟩⟩] := by
  refine ⟨?_, ?_, ?_, ?_, ?_, ?_, ?_, by decide⟩
  · intro after h hne
    simp [titleOfIcsU, h, hne]
  · intro h
    simp [titleOfIcsU, h]
  · intro after h hempty
    simp [titleOfIcsU, h, hempty]
  · intro after c h hp
    simp [resolveStartU, extract_dtU, h, hp]
  · intro after c h hp
    simp [resolveEndU, extract_dtU, h, hp]
  · intro he hst
    simp [resolveStartU, he, hst]
  · intro he hen
    simp [resolveEndU, he, hen]

/--
**C2 witness.**  The extraction branches exercised at concrete inputs
through the theorem.
-/
theorem C2_booking_extraction_witness :
    titleOfIcsU teamSyncIcs = pyStrip (beforeFirst crlf teamSyncAfter) ∧
    titleOfIcsU (("nothing here").toList) = defaultTitle ∧
    resolveStartU ⟨[], some 5, none⟩ = some (.fromEpoch 5) ∧
    resolveEndU ⟨[], none, some 7⟩ = some (.fromEpoch 7) :=
  ⟨(C2_booking_extraction teamSyncIcs bareEv 0).1 teamSyncAfter (by decide)
      (by decide),
   (C2_booking_extraction (("nothing here").toList) bareEv 0).2.1 (by decide),
   (C2_booking_extraction [] ⟨[], some 5, none⟩ 5).2.2.2.2.2.1 (by decide)
      rfl,
   (C2_booking_extraction [] ⟨[], none, some 7⟩ 7).2.2.2.2.2.2.1 (by decide)
      rfl⟩

/--
**C3.** A record whose start or end is still unresolved after marker
extraction and the numeric-epoch fallback is discarded entirely: its
processing yields `none`, it contributes nothing to the output sequence,
and every emitted row originates from a record whose start and end both
resolved.
-/
theorem C3_unresolved_record_dropped (tz : TZ) (xs ys evs : List RawEvent)
    (ev : RawEvent) :
    ((resolveStartU ev = none ∨ resolveEndU ev = none) →
      processEventU tz ev = none) ∧
    ((resolveStartU ev = none ∨ resolveEndU ev = none) →
      (xs ++ ev :: ys).filterMap (processEventU tz) =
        (xs ++ ys).filterMap (processEventU tz)) ∧
    (∀ row ∈ evs.filterMap (processEventU tz), ∃ ev2, ev2 ∈ evs ∧
      ∃ s e, resolveStartU ev2 = some s ∧ resolveEndU ev2 = some e ∧
        processEventU tz ev2 = some row) := by
  have hdrop : (resolveStartU ev = none ∨ resolveEndU ev = none) →
      processEventU tz ev = none := by
    intro h
    rcases h with h | h <;>
      · cases hS : resolveStartU ev <;> cases hE : resolveEndU ev <;>
          simp_all [processEventU]
  refine ⟨hdrop, ?_, ?_⟩
  · intro h
    simp [List.filterMap_append, List.filterMap_cons, hdrop h]
  · intro row hrow
    rcases List.mem_filterMap.mp hrow with ⟨ev2, hmem, hev2⟩
    refine ⟨ev2, hmem, ?_⟩
    cases hS : resolveStartU ev2 with
    | none => simp [processEventU, hS] at hev2
    | some s =>
        cases hE : resolveEndU ev2 with
        | none => simp [processEventU, hS, hE] at hev2
        | some e => exact ⟨s, e, rfl, rfl, hev2⟩

/--
**C3 witness.**  A record with no markers and no numeric epochs is
dropped and contributes nothing next to the example record.
-/
theorem C3_unresolved_record_dropped_witness :
    processEventU tzZero bareEv = none ∧
    ([teamSyncEv] ++ bareEv :: []).filterMap (processEventU tzZero) =
      ([teamSyncEv] ++ []).filterMap (processEventU tzZero) :=
  ⟨(C3_unresolved_record_dropped tzZero [] [] [] bareEv).1
      (Or.inl (by decide)),
   (C3_unresolved_record_dropped tzZero [teamSyncEv] [] [] bareEv).2.1
      (Or.inl (by decide))⟩

/--
**C10.** The field-extraction logic duplicated between the upcoming-jobs
path and the calendar-feed path is equivalent: each raw record resolves
to the same `(title, description, start, end)` quadruple in both, the two
paths drop exactly the same records, and each path's output is exactly
the shared resolved quadruple passed through its own display formatting.
-/
theorem C10_duplicated_extraction_equivalent (tz : TZ) (ev : RawEvent) :
    quadF ev = quadU ev ∧
    ((processEventF tz ev).isSome ↔ (processEventU tz ev).isSome) ∧
    processEventU tz ev = (quadU ev).map (rowOfResolved tz) ∧
    processEventF tz ev = (quadF ev).map (calOfResolved tz) := by
  have hS : resolveStartF ev = resolveStartU ev := rfl
  have hE : resolveEndF ev = resolveEndU ev := rfl
  have hT : titleOfIcsF ev.ics = titleOfIcsU ev.ics := rfl
  have hD : descOfIcsF ev.ics = descOfIcsU ev.ics := rfl
  refine ⟨?_, ?_, ?_, ?_⟩ <;>
    · cases h1 : resolveStartU ev <;> cases h2 : resolveEndU ev <;>
        simp [quadF, quadU, processEventF, processEventU, rowOfResolved,
          calOfResolved, hS, hE, hT, hD, h1, h2]

end LexiBackend
